import Mathlib

/-!
# Verification of the pharmacy-portal state layer (gptaid-main)

Shallow embedding of the session/profile stores of the repository:

* `src/stores/resourceBookmarkStore.ts` — the profile-scoped bookmark cache
  (`isBookmarked`, `toggleBookmark`, `loadBookmarks`, `clearBookmarks`);
* `src/stores/profileStore.ts` — the profile directory (`addProfile`) and the
  auth store (`checkSession`, `logout`, `updateAccount`);
* `src/types/index.ts` — the row→entity mappers (`mapRowToAccount`,
  `mapRowToProfile`);
* the profile dashboard service — training-progress tracking
  (`updateTrainingProgress`).

Remote-store semantics used throughout the embedding: supabase-js query
builders and auth calls resolve to a record `{ data, error }` with the error
in-band; the awaited promise does not reject on a failed query (postgrest-js
catches fetch rejections when `throwOnError` is not requested, and GoTrue
auth methods return `AuthError`s in-band).  The repository's own call sites
rely on exactly this: every error-aware call destructures `{ data, error }`
and runs `if (error) throw error`.  Each embedded operation therefore takes
the remote outcomes as an explicit environment record, and a TypeScript
`throw` becomes `Except.error`.

JavaScript `Map<string, string>` is embedded as an association list with the
usual `has` / `get` / `set` / `delete` operations; string truthiness
(`!s` is true for `undefined`, `null` and `""`) is embedded as `truthy` on
`Option String`.
-/

namespace GptAid

/-- Association-list embedding of a JS `Map<string, string>`. -/
abbrev PathMap := List (String × String)

/-- JS `map.has(k)`. -/
def mapHas (m : PathMap) (k : String) : Bool :=
  m.any (fun e => e.1 = k)

/-- JS `map.get(k)` (`none` plays `undefined`). -/
def mapGet (m : PathMap) (k : String) : Option String :=
  (m.find? (fun e => e.1 = k)).map (fun e => e.2)

/-- JS `map.set(k, v)`: overwrite the existing entry or append a new one. -/
def mapSet (m : PathMap) (k v : String) : PathMap :=
  if mapHas m k then m.map (fun e => if e.1 = k then (k, v) else e)
  else m ++ [(k, v)]

/-- JS `map.delete(k)`. -/
def mapDel (m : PathMap) (k : String) : PathMap :=
  m.filter (fun e => ¬ e.1 = k)

/-- JS truthiness of an optional string: `undefined`/`null`/`""` are falsy. -/
def truthy : Option String → Bool
  | none => false
  | some s => s ≠ ""

/-- A resource file item as seen by the bookmark store: the caller-supplied
path plus an optionally-known backend catalog identifier
(`StorageFileItem` in `src/services/supabaseStorage.ts`, restricted to the
fields `toggleBookmark` reads). -/
structure StorageFileItem where
  path : String
  catalogId : Option String
  deriving Repr, DecidableEq

/-- Remote calls issued by the bookmark store, recorded as a trace so that
"no insert was made" is a provable statement. -/
inductive BookmarkCall where
  | catalogLookup (filePath : String)
  | bookmarkDelete (profileId resourceId : String)
  | bookmarkAdd (profileId resourceId : String)
  deriving Repr, DecidableEq

/-- Errors thrown by `toggleBookmark` itself (the two `throw new Error(...)`
sites: `'Resource not found in catalog'` and
`'Catalog ID required to create bookmark'`). -/
inductive ToggleError where
  | resourceNotFound
  | catalogIdRequired
  deriving Repr, DecidableEq

/-- Remote outcomes consumed by one `toggleBookmark` call.
`lookupId` is the value of `data?.id` of the
`storage_files_catalog ... .single()` lookup (`none` when the query returned
an error or no row).  `deleteError` / `insertError` are the in-band `error`
fields of the bookmark delete / insert; the source discards both results, so
the embedding carries them only to let theorems quantify over remote
failure. -/
structure ToggleEnv where
  lookupId : Option String
  deleteError : Option String
  insertError : Option String
  deriving Repr, DecidableEq

/-- Result of one `toggleBookmark` call: the settled promise, the new
`bookmarkedResources` cache and the trace of remote calls issued. -/
structure ToggleResult where
  result : Except ToggleError Unit
  cache : PathMap
  calls : List BookmarkCall

/-- The `try { ... }` body of `toggleBookmark`
(`src/stores/resourceBookmarkStore.ts` lines 54–94), after the catalog-id
resolution: delete-then-remove when bookmarked, insert-then-add when not. -/
def toggleBody (cache : PathMap) (profileId : String) (resource : StorageFileItem)
    (catalogId : Option String) (wasBookmarked : Bool) (calls : List BookmarkCall) :
    ToggleResult :=
  if wasBookmarked then
    let existing := mapGet cache resource.path
    if !truthy existing then
      -- `console.error('Bookmark exists but catalog ID not found'); return;`
      ⟨Except.ok (), cache, calls⟩
    else
      ⟨Except.ok (), mapDel cache resource.path,
        calls ++ [BookmarkCall.bookmarkDelete profileId (existing.getD "")]⟩
  else
    if !truthy catalogId then
      ⟨Except.error ToggleError.catalogIdRequired, cache, calls⟩
    else
      ⟨Except.ok (), mapSet cache resource.path (catalogId.getD ""),
        calls ++ [BookmarkCall.bookmarkAdd profileId (catalogId.getD "")]⟩

/-- Embedding of `toggleBookmark(profileId, resource)`
(`src/stores/resourceBookmarkStore.ts` lines 32–95).  The source discards
the `{ error }` results of the remote delete and insert (supabase-js returns
them in-band and the `await` never rejects), so `env.deleteError` and
`env.insertError` do not influence the outcome. -/
def toggleBookmark (env : ToggleEnv) (cache : PathMap) (profileId : String)
    (resource : StorageFileItem) : ToggleResult :=
  let wasBookmarked := mapHas cache resource.path
  if !truthy resource.catalogId && !wasBookmarked then
    if truthy env.lookupId then
      toggleBody cache profileId resource env.lookupId wasBookmarked
        [BookmarkCall.catalogLookup resource.path]
    else
      ⟨Except.error ToggleError.resourceNotFound, cache,
        [BookmarkCall.catalogLookup resource.path]⟩
  else
    toggleBody cache profileId resource resource.catalogId wasBookmarked []

/-- Embedding of `isBookmarked(resourcePath)` (lines 28–30): a pure membership test on the
local cache. -/
def isBookmarked (cache : PathMap) (resourcePath : String) : Bool :=
  mapHas cache resourcePath

/-- Tests `Except.ok`-ness as a boolean (promise settled without rejection). -/
def exOk : Except ToggleError Unit → Bool
  | Except.ok _ => true
  | Except.error _ => false

/-- State threaded through an iterated sequence of `toggleBookmark` calls:
the cache after the calls so far and whether every call settled
successfully. -/
structure ToggleTrace where
  cache : PathMap
  allOk : Bool

/-- Runs `n` successive `toggleBookmark` calls for the same profile and resource,
the `k`-th call running against remote outcomes `envs k`. -/
def iterToggle (envs : Nat → ToggleEnv) (profileId : String)
    (resource : StorageFileItem) (cache0 : PathMap) : Nat → ToggleTrace
  | 0 => ⟨cache0, true⟩
  | n + 1 =>
    let t := iterToggle envs profileId resource cache0 n
    let r := toggleBookmark (envs n) t.cache profileId resource
    ⟨r.cache, t.allOk && exOk r.result⟩

-- Association-map lemmas

theorem mapHas_eq_isSome (m : PathMap) (k : String) :
    mapHas m k = (mapGet m k).isSome := by
  induction m with
  | nil => rfl
  | cons e tl ih =>
    by_cases h : e.1 = k
    · simp [mapHas, mapGet, List.any, List.find?, h]
    · simpa [mapHas, mapGet, List.any, List.find?, h] using ih

theorem find_overwrite (m : PathMap) (k v : String)
    (h : (m.find? (fun e => e.1 = k)).isSome = true) :
    (m.map (fun e => if e.1 = k then (k, v) else e)).find? (fun e => e.1 = k) =
      some (k, v) := by
  induction m with
  | nil => simp [List.find?] at h
  | cons e tl ih =>
    by_cases he : e.1 = k
    · simp [List.find?_cons_of_pos, he]
    · rw [List.find?_cons_of_neg _ (by simp [he])] at h
      simp only [List.map_cons, if_neg he]
      rw [List.find?_cons_of_neg _ (by simp [he])]
      exact ih h

theorem find_append_single (m : PathMap) (k v : String)
    (h : m.find? (fun e => e.1 = k) = none) :
    (m ++ [(k, v)]).find? (fun e => e.1 = k) = some (k, v) := by
  induction m with
  | nil => simp [List.find?]
  | cons e tl ih =>
    by_cases he : e.1 = k
    · rw [List.find?_cons_of_pos _ (by simp [he])] at h
      exact absurd h (by simp)
    · rw [List.find?_cons_of_neg _ (by simp [he])] at h
      rw [List.cons_append, List.find?_cons_of_neg _ (by simp [he])]
      exact ih h

theorem mapGet_mapSet_self (m : PathMap) (k v : String) :
    mapGet (mapSet m k v) k = some v := by
  unfold mapSet
  by_cases h : mapHas m k = true
  · rw [if_pos h]
    unfold mapGet
    rw [mapHas_eq_isSome] at h
    unfold mapGet at h
    rw [find_overwrite m k v (by simpa using h)]
    rfl
  · rw [if_neg h]
    unfold mapGet
    rw [mapHas_eq_isSome] at h
    unfold mapGet at h
    have hnone : m.find? (fun e => e.1 = k) = none := by
      cases hf : m.find? (fun e => e.1 = k) with
      | none => rfl
      | some e => rw [hf] at h; simp at h
    rw [find_append_single m k v hnone]
    rfl

theorem mapHas_mapSet_self (m : PathMap) (k v : String) :
    mapHas (mapSet m k v) k = true := by
  rw [mapHas_eq_isSome, mapGet_mapSet_self]
  rfl

theorem mapHas_mapDel_self (m : PathMap) (k : String) :
    mapHas (mapDel m k) k = false := by
  unfold mapHas mapDel
  induction m with
  | nil => rfl
  | cons e tl ih =>
    by_cases h : e.1 = k <;> simp_all [List.filter, List.any]

theorem mapHas_mapSet_of_mapHas (m : PathMap) (k v k' : String)
    (h : mapHas m k' = true) : mapHas (mapSet m k v) k' = true := by
  unfold mapSet
  by_cases hk : mapHas m k = true
  · simp only [hk, if_true]
    unfold mapHas at h ⊢
    rw [List.any_eq_true] at h ⊢
    obtain ⟨e, he, hek⟩ := h
    by_cases h1 : e.1 = k
    · exact ⟨(k, v), List.mem_map.2 ⟨e, he, by simp [h1]⟩, by
        simp at hek; simp [hek, ← h1]⟩
    · exact ⟨e, List.mem_map.2 ⟨e, he, by simp [h1]⟩, hek⟩
  · simp only [hk, if_false]
    unfold mapHas at h ⊢
    simp [List.any_append, h]

theorem truthy_iff (o : Option String) :
    truthy o = true ↔ ∃ s, o = some s ∧ s ≠ "" := by
  cases o <;> simp [truthy]

-- Single-step behaviour of `toggleBookmark`

/-- When the resource is not in the cache and the call settles successfully,
the call added the path to the cache with a nonempty catalog id. -/
theorem toggle_step_add (env : ToggleEnv) (cache : PathMap) (pid : String)
    (r : StorageFileItem) (h : mapHas cache r.path = false)
    (hok : exOk (toggleBookmark env cache pid r).result = true) :
    ∃ v, v ≠ "" ∧ (toggleBookmark env cache pid r).cache = mapSet cache r.path v := by
  unfold toggleBookmark at hok ⊢
  simp only [h] at hok ⊢
  cases hc : truthy r.catalogId with
  | true =>
    obtain ⟨s, hs, hsne⟩ := (truthy_iff _).1 hc
    simp only [hc] at hok ⊢
    simp only [toggleBody, hs, truthy] at hok ⊢
    simp [hsne] at hok ⊢
    exact ⟨s, hsne, rfl⟩
  | false =>
    simp only [hc] at hok ⊢
    cases hl : truthy env.lookupId with
    | true =>
      obtain ⟨s, hs, hsne⟩ := (truthy_iff _).1 hl
      simp only [hl] at hok ⊢
      simp only [toggleBody, hs, truthy] at hok ⊢
      simp [hsne] at hok ⊢
      exact ⟨s, hsne, rfl⟩
    | false =>
      simp only [hl] at hok
      simp [exOk] at hok

/-- When the resource is in the cache with a nonempty catalog id, the call
settles successfully and removed the path from the cache. -/
theorem toggle_step_remove (env : ToggleEnv) (cache : PathMap) (pid : String)
    (r : StorageFileItem) (v : String) (hv : v ≠ "")
    (h : mapGet cache r.path = some v) :
    exOk (toggleBookmark env cache pid r).result = true ∧
      (toggleBookmark env cache pid r).cache = mapDel cache r.path := by
  have hhas : mapHas cache r.path = true := by
    rw [mapHas_eq_isSome, h]; rfl
  unfold toggleBookmark
  simp only [hhas]
  unfold toggleBody
  simp only [h, truthy]
  simp [hv, exOk]

/-- Invariant carried through an iterated toggle sequence: after an even
number of successful toggles the path is absent from the cache, after an odd
number it is present with a nonempty catalog id. -/
theorem iterToggle_invariant (envs : Nat → ToggleEnv) (pid : String)
    (r : StorageFileItem) (cache0 : PathMap)
    (h0 : mapHas cache0 r.path = false) (n : Nat)
    (hok : (iterToggle envs pid r cache0 n).allOk = true) :
    (n % 2 = 0 → mapHas (iterToggle envs pid r cache0 n).cache r.path = false) ∧
    (n % 2 = 1 → ∃ v, v ≠ "" ∧
      mapGet (iterToggle envs pid r cache0 n).cache r.path = some v) := by
  induction n with
  | zero => exact ⟨fun _ => h0, fun h => by simp at h⟩
  | succ n ih =>
    have hsplit : (iterToggle envs pid r cache0 (n + 1)).allOk =
        ((iterToggle envs pid r cache0 n).allOk &&
          exOk (toggleBookmark (envs n) (iterToggle envs pid r cache0 n).cache pid r).result) := rfl
    rw [hsplit, Bool.and_eq_true] at hok
    obtain ⟨hokn, hokstep⟩ := hok
    obtain ⟨heven, hodd⟩ := ih hokn
    have hcache : (iterToggle envs pid r cache0 (n + 1)).cache =
        (toggleBookmark (envs n) (iterToggle envs pid r cache0 n).cache pid r).cache := rfl
    rcases Nat.mod_two_eq_zero_or_one n with hn | hn
    · -- even step: the toggle adds the path
      have hhas := heven hn
      obtain ⟨v, hvne, hset⟩ := toggle_step_add (envs n) _ pid r hhas hokstep
      constructor
      · intro hcontr
        omega
      · intro _
        refine ⟨v, hvne, ?_⟩
        rw [hcache, hset, mapGet_mapSet_self]
    · -- odd step: the toggle removes the path
      obtain ⟨v, hvne, hget⟩ := hodd hn
      obtain ⟨-, hdel⟩ := toggle_step_remove (envs n) _ pid r v hvne hget
      constructor
      · intro _
        rw [hcache, hdel, mapHas_mapDel_self]
      · intro hcontr
        omega

/-- C1: for every profile `P` and resource `R`, starting from a cache in
which `R` is not bookmarked, after `toggleBookmark(P, R)` completes
successfully an odd number of times `isBookmarked(R.path)` returns `true`,
and after an even number of successful calls it returns `false`. -/
theorem toggleBookmark_parity (envs : Nat → ToggleEnv) (pid : String)
    (r : StorageFileItem) (cache0 : PathMap)
    (h0 : isBookmarked cache0 r.path = false) (n : Nat)
    (hok : (iterToggle envs pid r cache0 n).allOk = true) :
    isBookmarked (iterToggle envs pid r cache0 n).cache r.path =
      decide (n % 2 = 1) := by
  obtain ⟨heven, hodd⟩ := iterToggle_invariant envs pid r cache0 h0 n hok
  rcases Nat.mod_two_eq_zero_or_one n with hn | hn
  · have := heven hn
    unfold isBookmarked
    rw [this, hn]
    simp
  · obtain ⟨v, -, hget⟩ := hodd hn
    unfold isBookmarked
    rw [mapHas_eq_isSome, hget, hn]
    simp

/-- Witness for C1 at a concrete input: profile `"P1"`, a resource with path
`"p"` and no carried catalog id, catalog lookups resolving to `"c1"`, three
successful toggles. -/
theorem toggleBookmark_parity_witness :
    isBookmarked
      (iterToggle (fun _ => ⟨some "c1", none, none⟩) "P1" ⟨"p", none⟩ [] 3).cache
      "p" = true := by
  have h := toggleBookmark_parity (fun _ => ⟨some "c1", none, none⟩) "P1"
    ⟨"p", none⟩ [] (by rfl) 3 (by rfl)
  simpa using h

/-- C2: the claim says that when the remote bookmark insert fails the local
cache is left at its pre-call state and the error is re-thrown.  The source
discards the `{ error }` result of the insert (supabase-js reports failures
in-band; the `await` never rejects, so the surrounding `catch` cannot see
them): at the concrete input below the remote insert fails
(`env.insertError = some "network error"`), yet `toggleBookmark` settles
successfully and the cache is mutated from `[]` to `[("p", "c1")]`. -/
theorem toggleBookmark_insert_failure_ignored :
    (toggleBookmark ⟨none, none, some "network error"⟩ [] "P1" ⟨"p", some "c1"⟩).result
        = Except.ok () ∧
      (toggleBookmark ⟨none, none, some "network error"⟩ [] "P1" ⟨"p", some "c1"⟩).cache
        = [("p", "c1")] ∧
      (toggleBookmark ⟨none, none, some "network error"⟩ [] "P1" ⟨"p", some "c1"⟩).calls
        = [BookmarkCall.bookmarkAdd "P1" "c1"] := by
  refine ⟨rfl, rfl, rfl⟩

/-- C6: if the resource is not currently bookmarked, carries no catalog
identifier, and the catalog lookup by path finds no matching entry, then
`toggleBookmark` fails with the resource-not-found error, the cache is
unchanged, and the only remote call issued is the catalog lookup — in
particular no bookmark row is inserted. -/
theorem toggleBookmark_unknown_resource (env : ToggleEnv) (cache : PathMap)
    (pid : String) (r : StorageFileItem)
    (hcat : r.catalogId = none)
    (hnotbm : isBookmarked cache r.path = false)
    (hlookup : env.lookupId = none) :
    toggleBookmark env cache pid r =
      ⟨Except.error ToggleError.resourceNotFound, cache,
        [BookmarkCall.catalogLookup r.path]⟩ := by
  unfold toggleBookmark
  unfold isBookmarked at hnotbm
  simp [hnotbm, hcat, hlookup, truthy]

/-- Witness for C6: an unbookmarked, catalog-less resource whose lookup
comes back empty. -/
theorem toggleBookmark_unknown_resource_witness :
    toggleBookmark ⟨none, none, none⟩ [] "P1" ⟨"missing.pdf", none⟩ =
      ⟨Except.error ToggleError.resourceNotFound, [],
        [BookmarkCall.catalogLookup "missing.pdf"]⟩ :=
  toggleBookmark_unknown_resource ⟨none, none, none⟩ [] "P1" ⟨"missing.pdf", none⟩
    rfl rfl rfl

-- `loadBookmarks` (`src/stores/resourceBookmarkStore.ts` lines 97–132)

/-- The joined `storage_files_catalog` sub-row of a bookmark row (the join
may be missing when the resource was removed from the catalog). -/
structure CatalogJoin where
  id : String
  file_path : String
  deriving Repr, DecidableEq

/-- One row of the `bookmarks ⋈ storage_files_catalog` select. -/
structure BookmarkJoinRow where
  resource_id : String
  storage_files_catalog : Option CatalogJoin
  deriving Repr, DecidableEq

/-- Remote outcome of the joined select: the in-band `{ data, error }`. -/
structure LoadEnv where
  rows : Option (List BookmarkJoinRow)
  fetchError : Option String
  deriving Repr, DecidableEq

/-- State of the bookmark store (`bookmarkedResources`, `loading`). -/
structure BookmarkStoreState where
  bookmarkedResources : PathMap
  loading : Bool
  deriving Repr, DecidableEq

/-- Embedding of `file_path.replace(/^\/+/, '')`: strip the leading run of slashes. -/
def stripLeadingSlashes (s : String) : String :=
  String.mk (s.toList.dropWhile (fun c => c = '/'))

/-- The loop body of `loadBookmarks`: keep a row only when
`bookmark.storage_files_catalog?.file_path` is truthy, keying the map by the
normalized path. -/
def loadStep (m : PathMap) (row : BookmarkJoinRow) : PathMap :=
  match row.storage_files_catalog with
  | some j => if j.file_path ≠ "" then
      mapSet m (stripLeadingSlashes j.file_path) row.resource_id
    else m
  | none => m

/-- The `path → catalogId` map `loadBookmarks` builds from the returned
rows (rows with a missing or empty join path are skipped). -/
def buildBookmarkMap (rows : List BookmarkJoinRow) : PathMap :=
  rows.foldl loadStep []

/-- Embedding of `loadBookmarks(profileId)`: on a query error the `catch` swallows it and
only `loading` is reset; otherwise the cache is replaced wholesale by the
freshly built map. -/
def loadBookmarks (env : LoadEnv) (st : BookmarkStoreState) : BookmarkStoreState :=
  if env.fetchError.isSome then
    { st with loading := false }
  else
    { bookmarkedResources := buildBookmarkMap (env.rows.getD []), loading := false }

theorem mapHas_loadStep_of_mapHas (m : PathMap) (row : BookmarkJoinRow)
    (k : String) (h : mapHas m k = true) : mapHas (loadStep m row) k = true := by
  unfold loadStep
  cases row.storage_files_catalog with
  | none => exact h
  | some j =>
    by_cases hp : j.file_path = ""
    · simp [hp, h]
    · simp only [ne_eq, hp, not_false_iff, if_true]
      exact mapHas_mapSet_of_mapHas _ _ _ _ h

theorem mapHas_foldl_loadStep_mono (rows : List BookmarkJoinRow) (m : PathMap)
    (k : String) (h : mapHas m k = true) :
    mapHas (rows.foldl loadStep m) k = true := by
  induction rows generalizing m with
  | nil => exact h
  | cons hd tl ih =>
    rw [List.foldl_cons]
    exact ih _ (mapHas_loadStep_of_mapHas _ _ _ h)

theorem mapHas_foldl_loadStep (rows : List BookmarkJoinRow) (m : PathMap)
    (row : BookmarkJoinRow) (j : CatalogJoin)
    (hmem : row ∈ rows) (hj : row.storage_files_catalog = some j)
    (hp : j.file_path ≠ "") :
    mapHas (rows.foldl loadStep m) (stripLeadingSlashes j.file_path) = true := by
  induction rows generalizing m with
  | nil => cases hmem
  | cons hd tl ih =>
    rw [List.foldl_cons]
    rcases List.mem_cons.1 hmem with heq | htl
    · have hstep : mapHas (loadStep m hd) (stripLeadingSlashes j.file_path) = true := by
        unfold loadStep
        rw [← heq, hj]
        simp only [ne_eq, hp, not_false_iff, if_true]
        exact mapHas_mapSet_self _ _ _
      exact mapHas_foldl_loadStep_mono tl _ _ hstep
    · exact ih _ htl

/-- C9, counterexample to the claim as stated: `loadBookmarks` keys the cache
by the *normalized* path (leading slashes stripped), so for a returned row
with an intact catalog join whose `file_path` is `"/a.pdf"`,
`isBookmarked("/a.pdf")` is `false` after the load — the claim demands
`true` for the path of every intact row. -/
theorem loadBookmarks_raw_path_counterexample :
    ((⟨some [⟨"c1", some ⟨"c1", "/a.pdf"⟩⟩], none⟩ : LoadEnv).rows.getD []).all
        (fun row => row.storage_files_catalog.isSome) = true ∧
      (loadBookmarks ⟨some [⟨"c1", some ⟨"c1", "/a.pdf"⟩⟩], none⟩
          ⟨[], false⟩).bookmarkedResources = [("a.pdf", "c1")] ∧
      isBookmarked
        (loadBookmarks ⟨some [⟨"c1", some ⟨"c1", "/a.pdf"⟩⟩], none⟩
          ⟨[], false⟩).bookmarkedResources "/a.pdf" = false := by
  refine ⟨rfl, rfl, rfl⟩

/-- C9, amended: after `loadBookmarks` completes successfully,
`isBookmarked` returns `true` for the *normalized* path (leading slashes
stripped) of every returned row with an intact (truthy) catalog join; rows
with a missing join are skipped without failing the load; and the cache is
replaced wholesale by the newly built map, independently of its previous
contents. -/
theorem loadBookmarks_roundtrip (env : LoadEnv) (st st2 : BookmarkStoreState)
    (rows : List BookmarkJoinRow)
    (herr : env.fetchError = none) (hrows : env.rows = some rows) :
    (∀ row ∈ rows, ∀ j, row.storage_files_catalog = some j → j.file_path ≠ "" →
      isBookmarked (loadBookmarks env st).bookmarkedResources
        (stripLeadingSlashes j.file_path) = true) ∧
      (loadBookmarks env st).bookmarkedResources = buildBookmarkMap rows ∧
      (loadBookmarks env st).bookmarkedResources =
        (loadBookmarks env st2).bookmarkedResources ∧
      (loadBookmarks env st).loading = false := by
  have hload : (loadBookmarks env st).bookmarkedResources = buildBookmarkMap rows := by
    unfold loadBookmarks
    simp [herr, hrows]
  have hload2 : (loadBookmarks env st2).bookmarkedResources = buildBookmarkMap rows := by
    unfold loadBookmarks
    simp [herr, hrows]
  have hloading : (loadBookmarks env st).loading = false := by
    unfold loadBookmarks
    simp [herr, hrows]
  refine ⟨?_, hload, hload.trans hload2.symm, hloading⟩
  intro row hmem j hj hp
  unfold isBookmarked
  rw [hload]
  exact mapHas_foldl_loadStep rows [] row j hmem hj hp

/-- Witness for C9 at a concrete input: two returned rows, one intact and
one with a missing catalog join; the intact row's normalized path is
bookmarked after the load. -/
theorem loadBookmarks_roundtrip_witness :
    isBookmarked
      (loadBookmarks ⟨some [⟨"c1", some ⟨"c1", "docs/a.pdf"⟩⟩, ⟨"c2", none⟩], none⟩
        ⟨[("stale", "x")], true⟩).bookmarkedResources "docs/a.pdf" = true := by
  have h := loadBookmarks_roundtrip
    ⟨some [⟨"c1", some ⟨"c1", "docs/a.pdf"⟩⟩, ⟨"c2", none⟩], none⟩
    ⟨[("stale", "x")], true⟩ ⟨[], false⟩
    [⟨"c1", some ⟨"c1", "docs/a.pdf"⟩⟩, ⟨"c2", none⟩] rfl rfl
  have hmem := h.1 ⟨"c1", some ⟨"c1", "docs/a.pdf"⟩⟩ (by simp)
    ⟨"c1", "docs/a.pdf"⟩ rfl (by decide)
  exact hmem

-- Auth store (`src/stores/authStore.ts` portion of `src/stores/profileStore.ts`):
-- `checkSession`, `logout`, `updateAccount`; row mapper from `src/types/index.ts`.

/-- A supabase auth user (only the `id` field is consumed). -/
structure User where
  id : String
  deriving Repr, DecidableEq

/-- A supabase auth session; `session.user` is always present on a live
session object. -/
structure Session where
  user : User
  deriving Repr, DecidableEq

/-- One row of the `accounts` table, with the columns of the store's select
list; optional columns are `Option` (`none` plays SQL `NULL` / absent). -/
structure AccountRow where
  id : String
  email : String
  pharmacy_name : String
  pharmacy_phone : Option String
  subscription_status : Option String
  created_at : String
  updated_at : Option String
  address1 : Option String
  city : Option String
  state : Option String
  zipcode : Option String
  deriving Repr, DecidableEq

/-- The app-level `Account` entity (`src/types/index.ts`).  The source casts
`subscription_status` with an unchecked TypeScript `as`, so the field is
embedded as a plain string. -/
structure Account where
  id : String
  email : String
  pharmacyName : String
  pharmacyPhone : Option String
  subscriptionStatus : String
  createdAt : String
  updatedAt : Option String
  address1 : Option String
  city : Option String
  state : Option String
  zipcode : Option String
  deriving Repr, DecidableEq

/-- Embedding of `mapRowToAccount` (`src/types/index.ts` lines 34–48): total row→entity
mapper; `subscription_status ?? 'inactive'`, optional fields `?? null`. -/
def mapRowToAccount (row : AccountRow) : Account :=
  { id := row.id
    email := row.email
    pharmacyName := row.pharmacy_name
    pharmacyPhone := row.pharmacy_phone
    subscriptionStatus := row.subscription_status.getD "inactive"
    createdAt := row.created_at
    updatedAt := row.updated_at
    address1 := row.address1
    city := row.city
    state := row.state
    zipcode := row.zipcode }

/-- In-memory state of the auth store. -/
structure AuthState where
  isInitialized : Bool
  session : Option Session
  user : Option User
  account : Option Account
  deriving Repr, DecidableEq

/-- Remote outcomes consumed by one `checkSession()` call: the session that
`supabase.auth.getSession()` returns (in-band, never rejects) and the
outcome of the `accounts ... .single()` fetch (`Except.error` when the
query returned an in-band error that `if (error) throw error` re-throws). -/
structure CheckSessionEnv where
  session : Option Session
  accountFetch : Except String AccountRow

/-- Embedding of `checkSession()` (`src/stores/profileStore.ts` lines 154–179): the whole
body runs in a `try` whose `catch` logs and still sets
`isInitialized: true`. -/
def checkSession (env : CheckSessionEnv) (st : AuthState) : AuthState :=
  let st1 : AuthState :=
    { st with session := env.session, user := env.session.map Session.user }
  match env.session with
  | none => { st1 with account := none, isInitialized := true }
  | some _ =>
    match env.accountFetch with
    | Except.error _ => { st1 with isInitialized := true }
    | Except.ok row =>
      { st1 with account := some (mapRowToAccount row), isInitialized := true }

/-- C3: `checkSession()` always terminates with `isInitialized = true`; both
when the session read and account fetch succeed and when any step fails, the
failure is caught rather than propagated. -/
theorem checkSession_initialized (env : CheckSessionEnv) (st : AuthState) :
    (checkSession env st).isInitialized = true := by
  unfold checkSession
  cases env.session with
  | none => rfl
  | some s =>
    cases env.accountFetch with
    | error e => rfl
    | ok row => rfl

/-- Remote outcome of `supabase.auth.signOut()`: the call resolves to
`{ error }` with any failure in-band and never rejects; the source discards
the result. -/
structure LogoutEnv where
  signOutError : Option String
  deriving Repr, DecidableEq

/-- Embedding of `logout()` (`src/stores/profileStore.ts` lines 149–152): await the
remote sign-out (result discarded), then clear session, user and account. -/
def logout (_env : LogoutEnv) (st : AuthState) : Except String AuthState :=
  Except.ok { st with session := none, user := none, account := none }

/-- C4: `logout()` never throws — even when the remote sign-out reports a
failure — and the in-memory session, user and account are cleared
regardless. -/
theorem logout_clears_state (env : LogoutEnv) (st : AuthState) :
    logout env st =
      Except.ok { st with session := none, user := none, account := none } := by
  rfl

-- `updateAccount` (`src/stores/profileStore.ts` lines 181–207)

/-- A `Partial<Account>` patch: every updatable field optional. -/
structure AccountPatch where
  pharmacyName : Option String
  pharmacyPhone : Option String
  subscriptionStatus : Option String
  address1 : Option String
  city : Option String
  state : Option String
  zipcode : Option String
  deriving Repr, DecidableEq

/-- Effect of the `updateAccount` payload on the matched `accounts` row.
`pharmacy_name: patch.pharmacyName` and
`subscription_status: patch.subscriptionStatus ?? undefined` serialize to an
absent key when the patch omits them (JSON drops `undefined` values), so
those columns are preserved; `pharmacy_phone` / `address1` / `city` /
`state` / `zipcode` use `?? null` and are therefore always written — with
`NULL` when absent from the patch; `updated_at` is always stamped. -/
def applyAccountPatch (row : AccountRow) (patch : AccountPatch) (now : String) :
    AccountRow :=
  { row with
    pharmacy_name := patch.pharmacyName.getD row.pharmacy_name
    pharmacy_phone := patch.pharmacyPhone
    subscription_status :=
      match patch.subscriptionStatus with
      | some s => some s
      | none => row.subscription_status
    address1 := patch.address1
    city := patch.city
    state := patch.state
    zipcode := patch.zipcode
    updated_at := some now }

/-- Remote context of one `updateAccount` call: the current `accounts` row
matched by `eq('id', user.id)` and the in-band error outcome of the
update. -/
structure UpdateAccountEnv where
  row : AccountRow
  updateError : Option String
  deriving Repr, DecidableEq

/-- Result of `updateAccount`: the settled promise (`Account | null` on
success), the new store state, and whether the remote update was issued. -/
structure UpdateAccountResult where
  result : Except String (Option Account)
  state : AuthState
  remoteWrite : Bool
  deriving Repr

/-- Embedding of `updateAccount(patch)`: no-op returning `null` when no user is active;
otherwise update the row, re-select it, map it and store it. -/
def updateAccount (env : UpdateAccountEnv) (st : AuthState) (patch : AccountPatch)
    (now : String) : UpdateAccountResult :=
  match st.user with
  | none => ⟨Except.ok none, st, false⟩
  | some _ =>
    match env.updateError with
    | some e => ⟨Except.error e, st, true⟩
    | none =>
      let account := mapRowToAccount (applyAccountPatch env.row patch now)
      ⟨Except.ok (some account), { st with account := some account }, true⟩

/-- C8, counterexample to the claim as stated: with an active user, a patch
that mentions only `pharmacyName` still overwrites the row's `address1`
(and phone/city/state/zipcode) with `NULL`, because the payload uses
`patch.address1 ?? null`.  The pre-call row has `address1 = "123 Main St"`;
after the call the returned account's `address1` is `null` — a field not
mentioned in the patch did not stay unchanged. -/
theorem updateAccount_overwrites_absent_fields :
    (updateAccount
        ⟨⟨"A1", "rx@example.com", "Pharm", some "555-1234", some "active",
          "2024-01-01", none, some "123 Main St", some "Tulsa", some "OK",
          some "74101"⟩, none⟩
        ⟨true, some ⟨⟨"A1"⟩⟩, some ⟨"A1"⟩, none⟩
        ⟨some "New Name", none, none, none, none, none, none⟩
        "2026-01-01").result =
      Except.ok (some ⟨"A1", "rx@example.com", "New Name", none, "active",
        "2024-01-01", some "2026-01-01", none, none, none, none⟩) ∧
      (some ⟨"A1", "rx@example.com", "New Name", none, "active",
        "2024-01-01", some "2026-01-01", none, none, none, none⟩ :
          Option Account).bind Account.address1 ≠
        (mapRowToAccount ⟨"A1", "rx@example.com", "Pharm", some "555-1234",
          some "active", "2024-01-01", none, some "123 Main St", some "Tulsa",
          some "OK", some "74101"⟩).address1 := by
  refine ⟨rfl, by simp [mapRowToAccount]⟩

/-- C8, amended: `updateAccount(patch)` returns `null` and performs no
remote write when no user is active.  Otherwise it issues the update and, on
success, returns the refreshed mapped account; the write leaves `id`,
`email` and `created_at` untouched, writes `pharmacy_name` and
`subscription_status` only when the patch provides them (preserving them
otherwise), but always overwrites `pharmacy_phone`, `address1`, `city`,
`state` and `zipcode` with the patch's values — `NULL` when absent — and
always stamps `updated_at`.  On a remote error the error is re-thrown and
the local account state is unchanged. -/
theorem updateAccount_spec (env : UpdateAccountEnv) (st : AuthState)
    (patch : AccountPatch) (now : String) :
    (st.user = none →
      updateAccount env st patch now = ⟨Except.ok none, st, false⟩) ∧
      (∀ u, st.user = some u → env.updateError = none →
        (updateAccount env st patch now).result =
          Except.ok (some (mapRowToAccount (applyAccountPatch env.row patch now))) ∧
        (updateAccount env st patch now).state.account =
          some (mapRowToAccount (applyAccountPatch env.row patch now)) ∧
        (updateAccount env st patch now).remoteWrite = true ∧
        (applyAccountPatch env.row patch now).id = env.row.id ∧
        (applyAccountPatch env.row patch now).email = env.row.email ∧
        (applyAccountPatch env.row patch now).created_at = env.row.created_at ∧
        (applyAccountPatch env.row patch now).pharmacy_name =
          patch.pharmacyName.getD env.row.pharmacy_name ∧
        (patch.subscriptionStatus = none →
          (applyAccountPatch env.row patch now).subscription_status =
            env.row.subscription_status) ∧
        (applyAccountPatch env.row patch now).pharmacy_phone = patch.pharmacyPhone ∧
        (applyAccountPatch env.row patch now).address1 = patch.address1 ∧
        (applyAccountPatch env.row patch now).city = patch.city ∧
        (applyAccountPatch env.row patch now).state = patch.state ∧
        (applyAccountPatch env.row patch now).zipcode = patch.zipcode ∧
        (applyAccountPatch env.row patch now).updated_at = some now) ∧
      (∀ u e, st.user = some u → env.updateError = some e →
        updateAccount env st patch now = ⟨Except.error e, st, true⟩) := by
  refine ⟨?_, ?_, ?_⟩
  · intro h
    unfold updateAccount
    rw [h]
  · intro u hu herr
    unfold updateAccount
    rw [hu, herr]
    refine ⟨rfl, rfl, rfl, rfl, rfl, rfl, rfl, ?_, rfl, rfl, rfl, rfl, rfl, rfl⟩
    intro hs
    unfold applyAccountPatch
    rw [hs]
  · intro u e hu herr
    unfold updateAccount
    rw [hu, herr]

/-- Witness for C8 at concrete inputs: one call with no active user (no-op
returning `null`) and one call with an active user and a full patch
(successful write). -/
theorem updateAccount_spec_witness :
    updateAccount ⟨⟨"A1", "e", "P", none, none, "t0", none, none, none, none, none⟩,
        none⟩ ⟨true, none, none, none⟩
        ⟨none, none, none, none, none, none, none⟩ "t1" =
      ⟨Except.ok none, ⟨true, none, none, none⟩, false⟩ ∧
      (updateAccount ⟨⟨"A1", "e", "P", none, none, "t0", none, none, none, none,
          none⟩, none⟩ ⟨true, some ⟨⟨"A1"⟩⟩, some ⟨"A1"⟩, none⟩
          ⟨some "Q", none, some "active", some "a", some "c", some "s", some "z"⟩
          "t1").result =
        Except.ok (some (mapRowToAccount (applyAccountPatch
          ⟨"A1", "e", "P", none, none, "t0", none, none, none, none, none⟩
          ⟨some "Q", none, some "active", some "a", some "c", some "s", some "z"⟩
          "t1"))) := by
  constructor
  · exact (updateAccount_spec ⟨⟨"A1", "e", "P", none, none, "t0", none, none,
      none, none, none⟩, none⟩ ⟨true, none, none, none⟩
      ⟨none, none, none, none, none, none, none⟩ "t1").1 rfl
  · have h := (updateAccount_spec ⟨⟨"A1", "e", "P", none, none, "t0", none, none,
      none, none, none⟩, none⟩ ⟨true, some ⟨⟨"A1"⟩⟩, some ⟨"A1"⟩, none⟩
      ⟨some "Q", none, some "active", some "a", some "c", some "s", some "z"⟩
      "t1").2.1 ⟨"A1"⟩ rfl rfl
    exact h.1

/-- C10: `mapRowToAccount` is total on its input row (a total function by
construction); `subscriptionStatus` defaults to `"inactive"` when the row's
`subscription_status` is `NULL`/absent, and each optional field
(`pharmacyPhone`, `updatedAt`, `address1`, `city`, `state`, `zipcode`)
defaults to `null` when absent. -/
theorem mapRowToAccount_defaults (row : AccountRow) :
    (mapRowToAccount row).subscriptionStatus =
      row.subscription_status.getD "inactive" ∧
      (row.subscription_status = none →
        (mapRowToAccount row).subscriptionStatus = "inactive") ∧
      (row.pharmacy_phone = none → (mapRowToAccount row).pharmacyPhone = none) ∧
      (row.updated_at = none → (mapRowToAccount row).updatedAt = none) ∧
      (row.address1 = none → (mapRowToAccount row).address1 = none) ∧
      (row.city = none → (mapRowToAccount row).city = none) ∧
      (row.state = none → (mapRowToAccount row).state = none) ∧
      (row.zipcode = none → (mapRowToAccount row).zipcode = none) := by
  refine ⟨rfl, ?_, ?_, ?_, ?_, ?_, ?_, ?_⟩ <;>
    · intro h
      simp [mapRowToAccount, h]

/-- Witness for C10 at a concrete row with every optional column absent. -/
theorem mapRowToAccount_defaults_witness :
    (mapRowToAccount ⟨"A1", "e", "P", none, none, "t0", none, none, none, none,
        none⟩).subscriptionStatus = "inactive" ∧
      (mapRowToAccount ⟨"A1", "e", "P", none, none, "t0", none, none, none, none,
        none⟩).pharmacyPhone = none := by
  have h := mapRowToAccount_defaults
    ⟨"A1", "e", "P", none, none, "t0", none, none, none, none, none⟩
  exact ⟨h.2.1 rfl, h.2.2.1 rfl⟩

-- Profile directory (`src/stores/profileStore.ts`): `addProfile`

/-- One row of the `member_profiles` table as returned by the insert's
`.select().single()`. -/
structure ProfileRow where
  id : String
  account_id : String
  full_name : String
  role : String
  email : Option String
  phone : Option String
  is_active : Option Bool
  created_at : String
  updated_at : Option String
  deriving Repr, DecidableEq

/-- The app-level `MemberProfile` entity (`src/types/index.ts`). -/
structure MemberProfile where
  id : String
  accountId : String
  fullName : String
  role : String
  email : Option String
  phone : Option String
  isActive : Bool
  createdAt : String
  updatedAt : Option String
  deriving Repr, DecidableEq

/-- Embedding of `mapRowToProfile` (`src/types/index.ts` lines 50–62); `!!row.is_active`
coerces an absent flag to `false`. -/
def mapRowToProfile (row : ProfileRow) : MemberProfile :=
  { id := row.id
    accountId := row.account_id
    fullName := row.full_name
    role := row.role
    email := row.email
    phone := row.phone
    isActive := row.is_active.getD false
    createdAt := row.created_at
    updatedAt := row.updated_at }

/-- The argument of `addProfile` (an `Omit<MemberProfile, ...>` value, which
at runtime may lack any of its fields — the claim's `addProfile({})` passes
an object with none of them). -/
structure ProfileInput where
  accountId : Option String
  fullName : Option String
  role : Option String
  email : Option String
  phone : Option String
  isActive : Option Bool
  deriving Repr, DecidableEq

/-- The insert payload `addProfile` builds
(`src/stores/profileStore.ts` lines 54–61): fields are copied through,
`email ?? null`, `phone ?? null`, `is_active ?? true`. -/
structure ProfilePayload where
  account_id : Option String
  full_name : Option String
  role : Option String
  email : Option String
  phone : Option String
  is_active : Bool
  deriving Repr, DecidableEq

def profilePayload (p : ProfileInput) : ProfilePayload :=
  { account_id := p.accountId
    full_name := p.fullName
    role := p.role
    email := p.email
    phone := p.phone
    is_active := p.isActive.getD true }

/-- Remote calls issued by the profile directory, as a trace. -/
inductive ProfileCall where
  | memberProfileInsert (payload : ProfilePayload)
  deriving Repr, DecidableEq

/-- Remote outcome of the `member_profiles` insert (its
`.select().single()` result, with the in-band error re-thrown by
`if (error) throw error`). -/
structure AddProfileEnv where
  insertResult : Except String ProfileRow

/-- In-memory state of the profile directory. -/
structure ProfileState where
  currentProfile : Option MemberProfile
  profiles : List MemberProfile
  deriving Repr, DecidableEq

/-- Result of one `addProfile` call: the settled promise, the new store
state, and the trace of remote calls issued. -/
structure AddProfileResult where
  result : Except String MemberProfile
  state : ProfileState
  calls : List ProfileCall

/-- Embedding of `addProfile(p)` (`src/stores/profileStore.ts` lines 53–71): build the
payload, insert, throw the in-band error if any, otherwise map the created
row and append it to the in-memory set.  The source performs no validation
of any kind before the insert. -/
def addProfile (env : AddProfileEnv) (st : ProfileState) (p : ProfileInput) :
    AddProfileResult :=
  let payload := profilePayload p
  match env.insertResult with
  | Except.error e =>
    ⟨Except.error e, st, [ProfileCall.memberProfileInsert payload]⟩
  | Except.ok row =>
    let created := mapRowToProfile row
    ⟨Except.ok created,
      { st with profiles := st.profiles ++ [created] },
      [ProfileCall.memberProfileInsert payload]⟩

/-- C5, counterexample to the claim as stated: `addProfile` of the empty
input (no role, no name, no account id) does not fail validation — there is
no validation to fail — and it does contact the remote store: the call trace
contains the `member_profiles` insert, and when the remote insert succeeds
the call even resolves successfully. -/
theorem addProfile_empty_contacts_remote :
    (addProfile ⟨Except.ok ⟨"p1", "A1", "", "", none, none, some true, "t0", none⟩⟩
        ⟨none, []⟩ ⟨none, none, none, none, none, none⟩).calls =
      [ProfileCall.memberProfileInsert ⟨none, none, none, none, none, true⟩] ∧
      (addProfile ⟨Except.ok ⟨"p1", "A1", "", "", none, none, some true, "t0", none⟩⟩
        ⟨none, []⟩ ⟨none, none, none, none, none, none⟩).result =
        Except.ok (mapRowToProfile ⟨"p1", "A1", "", "", none, none, some true, "t0", none⟩) := by
  exact ⟨rfl, rfl⟩

/-- C5, amended: `addProfile` performs no identifying-field validation; for
every input — including one with no role, no first name and no last name —
it issues exactly one remote insert of the mapped payload.  It fails only
when the remote insert fails (leaving the in-memory set unchanged), and on
success appends the created profile to the in-memory set. -/
theorem addProfile_no_validation (env : AddProfileEnv) (st : ProfileState)
    (p : ProfileInput) :
    (addProfile env st p).calls =
      [ProfileCall.memberProfileInsert (profilePayload p)] ∧
      (∀ e, env.insertResult = Except.error e →
        (addProfile env st p).result = Except.error e ∧
        (addProfile env st p).state = st) ∧
      (∀ row, env.insertResult = Except.ok row →
        (addProfile env st p).result = Except.ok (mapRowToProfile row) ∧
        (addProfile env st p).state.profiles =
          st.profiles ++ [mapRowToProfile row]) := by
  refine ⟨?_, ?_, ?_⟩
  · unfold addProfile
    cases env.insertResult <;> rfl
  · intro e he
    unfold addProfile
    rw [he]
    exact ⟨rfl, rfl⟩
  · intro row hrow
    unfold addProfile
    rw [hrow]
    exact ⟨rfl, rfl⟩

/-- Witness for C5's amended theorem at a concrete input: a remote insert
that fails with `"not-null violation"` on the empty profile input. -/
theorem addProfile_no_validation_witness :
    (addProfile ⟨Except.error "not-null violation"⟩ ⟨none, []⟩
        ⟨none, none, none, none, none, none⟩).calls =
      [ProfileCall.memberProfileInsert ⟨none, none, none, none, none, true⟩] ∧
      (addProfile ⟨Except.error "not-null violation"⟩ ⟨none, []⟩
        ⟨none, none, none, none, none, none⟩).result =
        Except.error "not-null violation" := by
  have h := addProfile_no_validation ⟨Except.error "not-null violation"⟩
    ⟨none, []⟩ ⟨none, none, none, none, none, none⟩
  exact ⟨h.1, (h.2.1 "not-null violation" rfl).1⟩

-- Training progress (`updateTrainingProgress` in the profile dashboard
-- service)

/-- The update object `updateTrainingProgress` builds: the clamped
percentage, the completion flag, and — only when marking complete — the
completion timestamp `completed_at` (numeric values are embedded as
integers). -/
structure TrainingUpdateData where
  completion_percentage : Int
  is_completed : Bool
  completed_at : Option String
  deriving Repr, DecidableEq

/-- Embedding of `Math.min(100, Math.max(0, completionPercentage))` and the conditional
`completed_at` stamp. -/
def trainingUpdateData (completionPercentage : Int) (isCompleted : Bool)
    (now : String) : TrainingUpdateData :=
  { completion_percentage := min 100 (max 0 completionPercentage)
    is_completed := isCompleted
    completed_at := if isCompleted then some now else none }

/-- In-band error outcome of the `member_training_progress` update. -/
structure TrainingEnv where
  updateError : Option String
  deriving Repr, DecidableEq

/-- Embedding of `updateTrainingProgress(profileId, trainingModuleId, completionPercentage,
isCompleted)`: send the update keyed by the two ids, re-throwing the in-band
error if any; the first component is the stored update object. -/
def updateTrainingProgress (env : TrainingEnv) (profileId trainingModuleId : String)
    (completionPercentage : Int) (isCompleted : Bool) (now : String) :
    TrainingUpdateData × Except String Unit :=
  let d := trainingUpdateData completionPercentage isCompleted now
  match env.updateError with
  | some e => (d, Except.error e)
  | none => (d, Except.ok ())

/-- C7: `updateTrainingProgress` stores a completion percentage clamped into
`[0, 100]` for every input — `150` stores `100` and `-10` stores `0` — and
when the `isCompleted` flag is set it also stamps a completion timestamp. -/
theorem updateTrainingProgress_clamps (env : TrainingEnv)
    (profileId trainingModuleId : String) (p : Int) (c : Bool) (now : String) :
    0 ≤ (updateTrainingProgress env profileId trainingModuleId p c
        now).1.completion_percentage ∧
      (updateTrainingProgress env profileId trainingModuleId p c
        now).1.completion_percentage ≤ 100 ∧
      (updateTrainingProgress env profileId trainingModuleId 150 c
        now).1.completion_percentage = 100 ∧
      (updateTrainingProgress env profileId trainingModuleId (-10) c
        now).1.completion_percentage = 0 ∧
      (updateTrainingProgress env profileId trainingModuleId p true
        now).1.completed_at = some now ∧
      (updateTrainingProgress env profileId trainingModuleId p false
        now).1.completed_at = none := by
  have hfst : ∀ q c2, (updateTrainingProgress env profileId trainingModuleId q c2
      now).1 = trainingUpdateData q c2 now := by
    intro q c2
    unfold updateTrainingProgress
    cases env.updateError <;> rfl
  refine ⟨?_, ?_, ?_, ?_, ?_, ?_⟩ <;> rw [hfst] <;>
    simp [trainingUpdateData]

end GptAid
